import Mathlib

/-!
Verification of the shared RabbitMQ client layer and the payment retry /
dead-letter engine of the e-commerce microservices platform.

The embedding is shallow: each JavaScript method of
`src/shared/rabbitmq-client.js` (class `RabbitMQClient`) becomes a Lean
function over an explicit `ClientState`; the asynchronous broker I/O a call
performs is recorded as an ordered list of `BrokerOp` effects, and a thrown
JS error becomes `Except.error`.  The handlers of the payment service
(`src/services/payment/index.js`) are embedded the same way, with the
nondeterministic outcome of the simulated payment gateway passed in as an
explicit `Except` argument and the in-memory stores reflected as Boolean
was-written fields of an outcome record.
-/

namespace ECommerce

/-- Header maps carry only the retry counter in this development, so header
values are natural numbers (key `x-retry-count`). -/
abbrev Headers := List (String × Nat)

/-- Reading of the retry counter from a possibly-absent header object, the
JS expression `(msg.properties.headers && msg.properties.headers[...]) || 0`
at key `x-retry-count`: absent object, absent key and value `0` all read
as `0`. -/
def getRetryCount (headers : Option Headers) : Nat :=
  match headers with
  | none => 0
  | some hs => (((hs.find? (fun p => p.1 == "x-retry-count"))).map Prod.snd).getD 0

/-- Message metadata after merging the publisher defaults with the
caller-supplied options (the result of the object spread in `publish` and
`sendToQueue`). -/
structure ResolvedOptions where
  persistent : Bool
  contentType : String
  timestamp : Nat
  messageId : String
  headers : Option Headers
  deriving DecidableEq, Repr

/-- Caller-supplied publish options; `none` models an absent JS property,
which the object-spread merge leaves at its default. -/
structure PublishOptions where
  persistent : Option Bool
  contentType : Option String
  timestamp : Option Nat
  messageId : Option String
  headers : Option Headers
  deriving DecidableEq, Repr

/-- Empty options object. -/
def noOptions : PublishOptions := ⟨none, none, none, none, none⟩

/-- Model of `generateMessageId()`: serviceName, current time and a random
suffix joined by dashes.  Time and randomness are explicit arguments. -/
def generateMessageId (serviceName : String) (now : Nat) (rand : String) : String :=
  serviceName ++ "-" ++ toString now ++ "-" ++ rand

/-- Merged `defaultOptions` object built inside `publish`/`sendToQueue`:
defaults `persistent: true`, contentType `application/json`,
timestamp `Date.now()`, messageId `this.generateMessageId()`, each
overridden by the corresponding property of `options` when present. -/
def resolveOptions (options : PublishOptions) (serviceName : String) (now : Nat)
    (rand : String) : ResolvedOptions :=
  { persistent := options.persistent.getD true
  , contentType := options.contentType.getD "application/json"
  , timestamp := options.timestamp.getD now
  , messageId := options.messageId.getD (generateMessageId serviceName now rand)
  , headers := options.headers }

/-- One broker/channel operation performed during a client call, in program
order.  `awaitDrain` is the suspension on a promise resolved by the drain
event of the channel. -/
inductive BrokerOp where
  | assertExchange (exchange ty : String) (durable autoDelete : Bool)
  | assertQueue (queue : String) (durable autoDelete : Bool)
  | bindQueue (queue exchange routingKey : String) (args : List (String × String))
  | channelPublish (exchange routingKey : String) (body : String) (opts : ResolvedOptions)
  | channelSendToQueue (queue : String) (body : String) (opts : ResolvedOptions)
  | awaitDrain
  | channelConsume (queue : String)
  | channelCancel (consumerTag : String)
  deriving DecidableEq, Repr

/-- Result of one client call: the ordered trace of channel operations it
performed and its returned value or thrown error. -/
structure OpResult (α : Type) where
  effects : List BrokerOp
  result : Except String α

/-- Single channel of the client; it remembers the prefetch limit set on
it (`none` until `channel.prefetch` has run). -/
structure Channel where
  prefetch : Option Nat
  deriving DecidableEq, Repr

/-- Mutable fields of a `RabbitMQClient` instance.  `connection` is
whether `this.connection` is non-null; `reconnectTimer` counts timers
pending in the event loop (the JS field holds at most one handle, and the
guard in `scheduleReconnect` is what keeps the count at one);
`consumers` is the queue-to-consumerTag map. -/
structure ClientState where
  connection : Bool
  channel : Option Channel
  isConnected : Bool
  reconnectTimer : Nat
  consumers : List (String × String)
  deriving DecidableEq, Repr

/-- Fields as set by the constructor. -/
def initialState : ClientState :=
  { connection := false, channel := none, isConnected := false
  , reconnectTimer := 0, consumers := [] }

/-- Model of `Map.get`. -/
def mapGet (m : List (String × String)) (k : String) : Option String :=
  (m.find? (fun p => p.1 == k)).map Prod.snd

/-- Model of `Map.set` (replaces any existing entry for the key). -/
def mapSet (m : List (String × String)) (k v : String) : List (String × String) :=
  (k, v) :: m.filter (fun p => !(p.1 == k))

/-- Model of `Map.delete`. -/
def mapDelete (m : List (String × String)) (k : String) : List (String × String) :=
  m.filter (fun p => !(p.1 == k))

namespace RabbitMQClient

/-- Model of `scheduleReconnect()`: early-return when a timer handle is
already stored, otherwise start one timer (`setTimeout`). -/
def scheduleReconnect (s : ClientState) : ClientState :=
  if s.reconnectTimer ≠ 0 then s
  else { s with reconnectTimer := s.reconnectTimer + 1 }

/-- Outcomes of the three awaited steps inside the try block of
`connect()`: whether `amqp.connect`, `connection.createChannel()` and
`channel.prefetch(1)` succeed. -/
structure ConnectEnv where
  connectOk : Bool
  createChannelOk : Bool
  prefetchOk : Bool
  deriving DecidableEq, Repr

/-- Model of `connect()`.  The try/catch makes it total: each failing await
jumps to the catch block, which schedules reconnection and returns `false`;
success assigns the connection, the channel, prefetch 1 and
`isConnected = true` in program order and returns `true`. -/
def connect (s : ClientState) (env : ConnectEnv) : ClientState × Bool :=
  if env.connectOk = false then
    (scheduleReconnect s, false)
  else
    let s1 := { s with connection := true }
    if env.createChannelOk = false then
      (scheduleReconnect s1, false)
    else
      let s2 := { s1 with channel := some { prefetch := none } }
      if env.prefetchOk = false then
        (scheduleReconnect s2, false)
      else
        ({ s2 with channel := some { prefetch := some 1 }, isConnected := true }, true)

/-- Listener registered on the connection error event: records
unhealthiness only. -/
def onConnectionError (s : ClientState) : ClientState :=
  { s with isConnected := false }

/-- Listener registered on the connection close event: records
unhealthiness and schedules reconnection. -/
def onConnectionClose (s : ClientState) : ClientState :=
  scheduleReconnect { s with isConnected := false }

/-- Model of `assertExchange(exchange, type, options)`: fail fast without a
channel, otherwise declare with defaults `durable: true, autoDelete: false`
overridden by the options. -/
def assertExchange (s : ClientState) (exchange ty : String)
    (durable autoDelete : Option Bool) : OpResult Unit :=
  match s.channel with
  | none => ⟨[], .error "Channel not initialized"⟩
  | some _ =>
    ⟨[.assertExchange exchange ty (durable.getD true) (autoDelete.getD false)], .ok ()⟩

/-- Model of `assertQueue(queue, options)`. -/
def assertQueue (s : ClientState) (queue : String)
    (durable autoDelete : Option Bool) : OpResult Unit :=
  match s.channel with
  | none => ⟨[], .error "Channel not initialized"⟩
  | some _ =>
    ⟨[.assertQueue queue (durable.getD true) (autoDelete.getD false)], .ok ()⟩

/-- Model of `bindQueue(queue, exchange, routingKey, args)`. -/
def bindQueue (s : ClientState) (queue exchange routingKey : String)
    (args : List (String × String)) : OpResult Unit :=
  match s.channel with
  | none => ⟨[], .error "Channel not initialized"⟩
  | some _ => ⟨[.bindQueue queue exchange routingKey args], .ok ()⟩

/-- Model of `publish(exchange, routingKey, message, options)`.  `message`
is the serialized body (`JSON.stringify`); `accepted` is the Boolean the
channel-level `publish` returns (`false` means the outbound buffer is
full, after which the call awaits the drain event before resolving).
Resolves to the messageId of the merged options. -/
def publish (s : ClientState) (exchange routingKey message : String)
    (options : PublishOptions) (serviceName : String) (now : Nat) (rand : String)
    (accepted : Bool) : OpResult String :=
  match s.channel with
  | none => ⟨[], .error "Channel not initialized"⟩
  | some _ =>
    let resolved := resolveOptions options serviceName now rand
    ⟨BrokerOp.channelPublish exchange routingKey message resolved ::
        (if accepted then [] else [BrokerOp.awaitDrain]),
     .ok resolved.messageId⟩

/-- Model of `publishWithHeaders(exchange, message, headers, options)`:
`publish` with the empty routing key and the headers merged into the
options. -/
def publishWithHeaders (s : ClientState) (exchange message : String)
    (headers : Headers) (options : PublishOptions) (serviceName : String)
    (now : Nat) (rand : String) (accepted : Bool) : OpResult String :=
  publish s exchange "" message { options with headers := some headers }
    serviceName now rand accepted

/-- Model of `sendToQueue(queue, message, options)`: the direct-to-queue
analog of `publish`, with the same defaults, backpressure wait and return
value. -/
def sendToQueue (s : ClientState) (queue message : String)
    (options : PublishOptions) (serviceName : String) (now : Nat) (rand : String)
    (accepted : Bool) : OpResult String :=
  match s.channel with
  | none => ⟨[], .error "Channel not initialized"⟩
  | some _ =>
    let resolved := resolveOptions options serviceName now rand
    ⟨BrokerOp.channelSendToQueue queue message resolved ::
        (if accepted then [] else [BrokerOp.awaitDrain]),
     .ok resolved.messageId⟩

/-- Model of `consume(queue, handler, options)`: fail fast without a
channel, otherwise register the consumer (`channel.consume`, whose
broker-assigned tag is the explicit `consumerTag` argument) and record it
in the queue-to-tag map.  Returns the tag. -/
def consume (s : ClientState) (queue consumerTag : String) :
    ClientState × OpResult String :=
  match s.channel with
  | none => (s, ⟨[], .error "Channel not initialized"⟩)
  | some _ =>
    ({ s with consumers := mapSet s.consumers queue consumerTag },
     ⟨[.channelConsume queue], .ok consumerTag⟩)

/-- Model of `cancelConsumer(queue)`: when the map holds a tag for the
queue and a channel exists, cancel at the broker and delete the entry;
otherwise do nothing.  Broker-assigned consumer tags are non-empty
strings, so `some tag` models the JS truthiness test
`if (consumerTag && this.channel)`. -/
def cancelConsumer (s : ClientState) (queue : String) :
    ClientState × List BrokerOp :=
  match mapGet s.consumers queue, s.channel with
  | some tag, some _ =>
    ({ s with consumers := mapDelete s.consumers queue }, [.channelCancel tag])
  | _, _ => (s, [])

/-- Model of `close()`: clear any pending reconnect timer, cancel every
registered consumer, close channel and connection (the JS fields keep
their objects; neither `this.channel` nor `this.connection` is set to
null), and record unhealthiness. -/
def close (s : ClientState) : ClientState :=
  let s1 := { s with reconnectTimer := 0 }
  let s2 := s.consumers.foldl (fun acc p => (cancelConsumer acc p.1).1) s1
  { s2 with isConnected := false }

/-- Model of `isHealthy()`. -/
def isHealthy (s : ClientState) : Bool :=
  s.isConnected && s.channel.isSome

end RabbitMQClient

/-- Raw delivery metadata a consumer callback receives: the header map and
the redelivered flag of the broker (`msg.fields.redelivered`), plus the
body. -/
structure Delivery where
  headers : Option Headers
  redelivered : Bool
  body : String
  deriving DecidableEq, Repr

/-- Broker redelivery of a nack-requeued message: the same message is
delivered again unchanged — AMQP requeue alters no properties and no
headers — with the redelivered flag now set. -/
def requeuedDelivery (m : Delivery) : Delivery :=
  { m with redelivered := true }

/-- What the per-message callback registered by `consume` did with the
delivery. -/
inductive ConsumeAction where
  | ignoredNull
  | acked
  | nacked (requeue : Bool)
  | noChannelOp
  deriving DecidableEq, Repr

/-- Per-message callback inside `consume`: a null delivery is logged and
ignored; otherwise `handlerRun` (the JSON parse of the body followed by
the handler, either of which may throw) is awaited inside the try block.
On success the message is acked unless `noAck`; on a throw it is nacked
with `requeue = !msg.fields.redelivered` unless `noAck`. -/
def consumeCallback (noAck : Bool) (msg : Option Delivery)
    (handlerRun : Delivery → Except String Unit) : ConsumeAction :=
  match msg with
  | none => .ignoredNull
  | some m =>
    match handlerRun m with
    | .ok _ => if noAck then .noChannelOp else .acked
    | .error _ => if noAck then .noChannelOp else .nacked (!m.redelivered)

/-- External events on one client instance, used to close the state space
under the operations that mutate `ClientState`.  The publish, send and
topology calls read the state but assign no field, so they are not events.
`timerFire` is the callback of the reconnect timer: it clears the stored
handle and calls `connect()` with the given environment; it only happens
while a timer is pending.  `consumeCall` and `cancelConsumerCall` are the
registry-mutating calls; `connectionError` and `connectionClose` are the
connection listeners. -/
inductive Event where
  | connectCall (env : RabbitMQClient.ConnectEnv)
  | connectionError
  | connectionClose
  | timerFire (env : RabbitMQClient.ConnectEnv)
  | consumeCall (queue consumerTag : String)
  | cancelConsumerCall (queue : String)
  | closeCall
  deriving Repr

/-- Callback of the reconnect timer (set the timer field to null, then call
`connect()`), guarded by the timer actually being pending. -/
def reconnectTimerFire (s : ClientState) (env : RabbitMQClient.ConnectEnv) : ClientState :=
  if s.reconnectTimer = 0 then s
  else (RabbitMQClient.connect { s with reconnectTimer := s.reconnectTimer - 1 } env).1

/-- One step of the event-level semantics of the client. -/
def step (s : ClientState) : Event → ClientState
  | .connectCall env => (RabbitMQClient.connect s env).1
  | .connectionError => RabbitMQClient.onConnectionError s
  | .connectionClose => RabbitMQClient.onConnectionClose s
  | .timerFire env => reconnectTimerFire s env
  | .consumeCall q tag => (RabbitMQClient.consume s q tag).1
  | .cancelConsumerCall q => (RabbitMQClient.cancelConsumer s q).1
  | .closeCall => RabbitMQClient.close s

/-- Run a sequence of events. -/
def run (s : ClientState) (evs : List Event) : ClientState :=
  evs.foldl step s

/-! ## Payment service (`src/services/payment/index.js`) -/

namespace Payment

/-- Default of `config.retry.maxAttempts` (environment variable
MAX_RETRY_ATTEMPTS, default 3). -/
def maxAttemptsDefault : Nat := 3

/-- What one invocation of `processPayment` did: which in-memory store it
wrote (`payments` / `failedPayments`), which event types it published, and
whether it returned or threw (the retry branch re-throws the gateway
error, and so does the max-retries branch after storing and publishing). -/
structure PaymentOutcome where
  storedPayment : Bool
  storedFailedPayment : Bool
  publishedEvents : List String
  handlerResult : Except String Unit
  deriving Repr

/-- Model of `processPayment(paymentData, msg)` with the outcome of the
simulated gateway passed in explicitly.  `retryCount` is what
`getRetryCount` read from the message headers. -/
def processPayment (retryCount maxAttempts : Nat)
    (gateway : Except String Unit) : PaymentOutcome :=
  match gateway with
  | .ok _ =>
    { storedPayment := true, storedFailedPayment := false
    , publishedEvents := ["payment.success", "shipping.create"]
    , handlerResult := .ok () }
  | .error e =>
    if retryCount < maxAttempts then
      { storedPayment := false, storedFailedPayment := false
      , publishedEvents := []
      , handlerResult := .error e }
    else
      { storedPayment := false, storedFailedPayment := true
      , publishedEvents := ["payment.failed"]
      , handlerResult := .error e }

/-- Handler function the payment service passes to `consume` for the
`payments.process` queue, as the `handlerRun` argument of
`consumeCallback`. -/
def paymentRun (maxAttempts : Nat) (gateway : Except String Unit)
    (m : Delivery) : Except String Unit :=
  (processPayment (getRetryCount m.headers) maxAttempts gateway).handlerResult

/-- One delivery of a payment message to the `payments.process` consumer:
the handler outcome paired with what the consume callback then did with
the message (`noAck` defaults to `false`). -/
def paymentDelivery (msg : Delivery) (maxAttempts : Nat)
    (gateway : Except String Unit) : PaymentOutcome × ConsumeAction :=
  (processPayment (getRetryCount msg.headers) maxAttempts gateway,
   consumeCallback false (some msg) (paymentRun maxAttempts gateway))

/-- Queue and headers of the `sendToQueue` call made by
`handleRetry(retryData, msg)`: it re-publishes the work item to
`payments.process` with `x-retry-count` set to the current count of the
message plus one. -/
structure RetrySend where
  queue : String
  headers : Headers
  deriving DecidableEq, Repr

/-- Re-publish performed by `handleRetry`, as a function of the headers of
the retried message.  Note: `handleRetry` is dead code in the source — it
is defined but never registered on any queue; the consumer that `start()`
actually registers on the payments.retry queue only logs the message and
returns, so this incrementing re-publish never runs. -/
def handleRetry (msgHeaders : Option Headers) : RetrySend :=
  { queue := "payments.process"
  , headers := [("x-retry-count", getRetryCount msgHeaders + 1)] }

end Payment

/-! ## Supporting lemmas -/

/-- Scheduling leaves a pending timer behind in every case. -/
lemma scheduleReconnect_timer_ne_zero (s : ClientState) :
    (RabbitMQClient.scheduleReconnect s).reconnectTimer ≠ 0 := by
  unfold RabbitMQClient.scheduleReconnect
  split
  · assumption
  · simp

/-- Scheduling never decreases the number of pending timers. -/
lemma scheduleReconnect_timer_ge (s : ClientState) :
    s.reconnectTimer ≤ (RabbitMQClient.scheduleReconnect s).reconnectTimer := by
  unfold RabbitMQClient.scheduleReconnect
  split
  · exact le_refl _
  · simp

/-- Scheduling keeps the pending-timer count at most one. -/
lemma scheduleReconnect_timer_le_one (s : ClientState)
    (h : s.reconnectTimer ≤ 1) :
    (RabbitMQClient.scheduleReconnect s).reconnectTimer ≤ 1 := by
  unfold RabbitMQClient.scheduleReconnect
  split
  · exact h
  next hz => simp at hz; simp [hz]

/-- Scheduling does not touch the channel field. -/
lemma scheduleReconnect_channel (s : ClientState) :
    (RabbitMQClient.scheduleReconnect s).channel = s.channel := by
  unfold RabbitMQClient.scheduleReconnect
  split <;> rfl

/-- Scheduling does not touch the consumer registry. -/
lemma scheduleReconnect_consumers (s : ClientState) :
    (RabbitMQClient.scheduleReconnect s).consumers = s.consumers := by
  unfold RabbitMQClient.scheduleReconnect
  split <;> rfl

/-- Cancelling a consumer does not touch the channel field. -/
lemma cancelConsumer_channel (s : ClientState) (q : String) :
    ((RabbitMQClient.cancelConsumer s q).1).channel = s.channel := by
  unfold RabbitMQClient.cancelConsumer
  cases hm : mapGet s.consumers q <;> cases hc : s.channel <;> simp [hc]

/-- Cancelling a consumer does not touch the reconnect timer. -/
lemma cancelConsumer_timer (s : ClientState) (q : String) :
    ((RabbitMQClient.cancelConsumer s q).1).reconnectTimer = s.reconnectTimer := by
  unfold RabbitMQClient.cancelConsumer
  cases hm : mapGet s.consumers q <;> cases hc : s.channel <;> simp

/-- The consumer-cancelling fold of `close` does not touch the channel. -/
lemma foldlCancel_channel (l : List (String × String)) :
    ∀ acc : ClientState,
      (l.foldl (fun acc p => (RabbitMQClient.cancelConsumer acc p.1).1) acc).channel
        = acc.channel := by
  induction l with
  | nil => intro acc; rfl
  | cons a t ih =>
    intro acc
    rw [List.foldl_cons, ih, cancelConsumer_channel]

/-- The consumer-cancelling fold of `close` does not touch the timer. -/
lemma foldlCancel_timer (l : List (String × String)) :
    ∀ acc : ClientState,
      (l.foldl (fun acc p => (RabbitMQClient.cancelConsumer acc p.1).1) acc).reconnectTimer
        = acc.reconnectTimer := by
  induction l with
  | nil => intro acc; rfl
  | cons a t ih =>
    intro acc
    rw [List.foldl_cons, ih, cancelConsumer_timer]

/-- Closing the client leaves the channel field as it was (the source
closes the channel object but never nulls the field). -/
lemma close_channel (s : ClientState) :
    (RabbitMQClient.close s).channel = s.channel := by
  show (s.consumers.foldl (fun acc p => (RabbitMQClient.cancelConsumer acc p.1).1)
      { s with reconnectTimer := 0 }).channel = s.channel
  rw [foldlCancel_channel]

/-- Closing the client clears the reconnect timer. -/
lemma close_timer (s : ClientState) :
    (RabbitMQClient.close s).reconnectTimer = 0 := by
  show (s.consumers.foldl (fun acc p => (RabbitMQClient.cancelConsumer acc p.1).1)
      { s with reconnectTimer := 0 }).reconnectTimer = 0
  rw [foldlCancel_timer]

/-- Connecting preserves channel presence (it only ever replaces the
channel by a fresh one, never by null). -/
lemma connect_channel_isSome (s : ClientState) (env : RabbitMQClient.ConnectEnv)
    (h : s.channel.isSome = true) :
    ((RabbitMQClient.connect s env).1).channel.isSome = true := by
  rcases env with ⟨co, cc, po⟩
  cases co
  · show (RabbitMQClient.scheduleReconnect s).channel.isSome = true
    rw [scheduleReconnect_channel]; exact h
  · cases cc
    · show (RabbitMQClient.scheduleReconnect { s with connection := true }).channel.isSome = true
      rw [scheduleReconnect_channel]; exact h
    · cases po
      · show (RabbitMQClient.scheduleReconnect
            { s with connection := true,
                     channel := some { prefetch := none } }).channel.isSome = true
        rw [scheduleReconnect_channel]
        rfl
      · rfl

/-- Connecting keeps the pending-timer count at most one. -/
lemma connect_timer_le_one (s : ClientState) (env : RabbitMQClient.ConnectEnv)
    (h : s.reconnectTimer ≤ 1) :
    ((RabbitMQClient.connect s env).1).reconnectTimer ≤ 1 := by
  rcases env with ⟨co, cc, po⟩
  cases co
  · exact scheduleReconnect_timer_le_one s h
  · cases cc
    · exact scheduleReconnect_timer_le_one _ h
    · cases po
      · exact scheduleReconnect_timer_le_one _ h
      · exact h

/-- Connecting never decreases the number of pending timers. -/
lemma connect_timer_ge (s : ClientState) (env : RabbitMQClient.ConnectEnv) :
    s.reconnectTimer ≤ ((RabbitMQClient.connect s env).1).reconnectTimer := by
  rcases env with ⟨co, cc, po⟩
  cases co
  · exact scheduleReconnect_timer_ge s
  · cases cc
    · exact scheduleReconnect_timer_ge { s with connection := true }
    · cases po
      · exact scheduleReconnect_timer_ge
          { s with connection := true, channel := some { prefetch := none } }
      · exact le_refl _

/-- Connecting does not touch the consumer registry. -/
lemma connect_consumers (s : ClientState) (env : RabbitMQClient.ConnectEnv) :
    ((RabbitMQClient.connect s env).1).consumers = s.consumers := by
  rcases env with ⟨co, cc, po⟩
  cases co
  · show (RabbitMQClient.scheduleReconnect s).consumers = s.consumers
    exact scheduleReconnect_consumers s
  · cases cc
    · show (RabbitMQClient.scheduleReconnect { s with connection := true }).consumers
          = s.consumers
      exact scheduleReconnect_consumers _
    · cases po
      · show (RabbitMQClient.scheduleReconnect
            { s with connection := true,
                     channel := some { prefetch := none } }).consumers = s.consumers
        exact scheduleReconnect_consumers _
      · rfl

/-- Registering a consumer does not touch the channel field. -/
lemma consume_channel (s : ClientState) (q tag : String) :
    ((RabbitMQClient.consume s q tag).1).channel = s.channel := by
  unfold RabbitMQClient.consume
  cases hc : s.channel <;> simp [hc]

/-- Registering a consumer does not touch the reconnect timer. -/
lemma consume_timer (s : ClientState) (q tag : String) :
    ((RabbitMQClient.consume s q tag).1).reconnectTimer = s.reconnectTimer := by
  unfold RabbitMQClient.consume
  cases hc : s.channel <;> simp

/-- A key can only be found in a non-empty map. -/
lemma mapGet_some_ne_nil (m : List (String × String)) (k v : String)
    (h : mapGet m k = some v) : m ≠ [] := by
  intro hm
  rw [hm] at h
  simp [mapGet] at h

/-- Cancelling a queue with no registration is a no-op with no broker
operation. -/
lemma cancelConsumer_of_none (s : ClientState) (q : String)
    (hm : mapGet s.consumers q = none) :
    RabbitMQClient.cancelConsumer s q = (s, []) := by
  unfold RabbitMQClient.cancelConsumer
  rw [hm]

/-- One event never clears the channel field once it is set. -/
lemma step_channel_isSome (s : ClientState) (e : Event)
    (h : s.channel.isSome = true) : (step s e).channel.isSome = true := by
  cases e with
  | connectCall env => exact connect_channel_isSome s env h
  | connectionError => exact h
  | connectionClose =>
    show (RabbitMQClient.scheduleReconnect { s with isConnected := false }).channel.isSome = true
    rw [scheduleReconnect_channel]
    exact h
  | timerFire env =>
    show (reconnectTimerFire s env).channel.isSome = true
    unfold reconnectTimerFire
    split
    · exact h
    · exact connect_channel_isSome _ env h
  | consumeCall q tag =>
    show ((RabbitMQClient.consume s q tag).1).channel.isSome = true
    rw [consume_channel]
    exact h
  | cancelConsumerCall q =>
    show ((RabbitMQClient.cancelConsumer s q).1).channel.isSome = true
    rw [cancelConsumer_channel]
    exact h
  | closeCall =>
    show (RabbitMQClient.close s).channel.isSome = true
    rw [close_channel]
    exact h

/-- Event sequences never clear the channel field once it is set. -/
lemma run_channel_isSome (evs : List Event) :
    ∀ s : ClientState, s.channel.isSome = true → (run s evs).channel.isSome = true := by
  induction evs with
  | nil => intro s h; exact h
  | cons e t ih => intro s h; exact ih (step s e) (step_channel_isSome s e h)

/-- One event keeps the pending-timer count at most one. -/
lemma step_timer_le_one (s : ClientState) (e : Event)
    (h : s.reconnectTimer ≤ 1) : (step s e).reconnectTimer ≤ 1 := by
  cases e with
  | connectCall env => exact connect_timer_le_one s env h
  | connectionError => exact h
  | connectionClose => exact scheduleReconnect_timer_le_one _ h
  | timerFire env =>
    show (reconnectTimerFire s env).reconnectTimer ≤ 1
    unfold reconnectTimerFire
    split
    · exact h
    · exact connect_timer_le_one _ env (show s.reconnectTimer - 1 ≤ 1 by omega)
  | consumeCall q tag =>
    show ((RabbitMQClient.consume s q tag).1).reconnectTimer ≤ 1
    rw [consume_timer]
    exact h
  | cancelConsumerCall q =>
    show ((RabbitMQClient.cancelConsumer s q).1).reconnectTimer ≤ 1
    rw [cancelConsumer_timer]
    exact h
  | closeCall =>
    show (RabbitMQClient.close s).reconnectTimer ≤ 1
    rw [close_timer]
    exact Nat.zero_le 1

/-- Event sequences keep the pending-timer count at most one. -/
lemma run_timer_le_one (evs : List Event) :
    ∀ s : ClientState, s.reconnectTimer ≤ 1 → (run s evs).reconnectTimer ≤ 1 := by
  induction evs with
  | nil => intro s h; exact h
  | cons e t ih => intro s h; exact ih (step s e) (step_timer_le_one s e h)

/-- A non-empty registry can only have been populated through `consume`,
which requires a channel: one event preserves this. -/
lemma step_consumersInv (s : ClientState) (e : Event)
    (h : s.consumers ≠ [] → s.channel.isSome = true) :
    (step s e).consumers ≠ [] → (step s e).channel.isSome = true := by
  cases e with
  | connectCall env =>
    intro hne
    rw [show (step s (Event.connectCall env)) = (RabbitMQClient.connect s env).1 from rfl,
      connect_consumers] at hne
    exact connect_channel_isSome s env (h hne)
  | connectionError => exact h
  | connectionClose =>
    intro hne
    have hne2 : (RabbitMQClient.scheduleReconnect { s with isConnected := false }).consumers
        ≠ [] := hne
    rw [scheduleReconnect_consumers] at hne2
    show (RabbitMQClient.scheduleReconnect { s with isConnected := false }).channel.isSome = true
    rw [scheduleReconnect_channel]
    exact h hne2
  | timerFire env =>
    show (reconnectTimerFire s env).consumers ≠ [] →
      (reconnectTimerFire s env).channel.isSome = true
    unfold reconnectTimerFire
    split
    · exact h
    · intro hne
      rw [connect_consumers] at hne
      exact connect_channel_isSome _ env (h hne)
  | consumeCall q tag =>
    intro hne
    show ((RabbitMQClient.consume s q tag).1).channel.isSome = true
    rw [consume_channel]
    cases hc : s.channel with
    | none =>
      have hs : (RabbitMQClient.consume s q tag).1 = s := by
        unfold RabbitMQClient.consume
        rw [hc]
      have hne2 : ((RabbitMQClient.consume s q tag).1).consumers ≠ [] := hne
      rw [hs] at hne2
      have h2 := h hne2
      rw [hc] at h2
      exact h2
    | some ch => rfl
  | cancelConsumerCall q =>
    intro hne
    show ((RabbitMQClient.cancelConsumer s q).1).channel.isSome = true
    rw [cancelConsumer_channel]
    cases hm : mapGet s.consumers q with
    | none =>
      have hne2 : ((RabbitMQClient.cancelConsumer s q).1).consumers ≠ [] := hne
      rw [cancelConsumer_of_none s q hm] at hne2
      exact h hne2
    | some tag => exact h (mapGet_some_ne_nil s.consumers q tag hm)
  | closeCall =>
    intro hne
    show (RabbitMQClient.close s).channel.isSome = true
    rw [close_channel]
    apply h
    intro hcon
    apply hne
    show (RabbitMQClient.close s).consumers = []
    unfold RabbitMQClient.close
    rw [hcon]
    rfl

/-- Event sequences preserve the registry-implies-channel invariant. -/
lemma run_consumersInv (evs : List Event) :
    ∀ s : ClientState, (s.consumers ≠ [] → s.channel.isSome = true) →
      ((run s evs).consumers ≠ [] → (run s evs).channel.isSome = true) := by
  induction evs with
  | nil => intro s h; exact h
  | cons e t ih => intro s h; exact ih (step s e) (step_consumersInv s e h)

/-! ## Claim theorems -/

/-- C1, evaluated on the live code path at the failing input: the first
delivery of a work item carries no x-retry-count header and is read as
attempt 0; when the handler fails, the consume wrapper nacks it with
requeue = true, and the broker redelivers the identical message with
unchanged headers, so execution 2 observes attempt count 0 — not the
2 - 1 = 1 the claim requires.  The incrementing re-publisher
`handleRetry` would have carried count 1, but it is never registered on
any queue (the consumer `start()` registers on payments.retry only logs),
so the counter never advances on the paths the program actually runs. -/
theorem retry_counter_not_incremented_on_live_path :
    getRetryCount (none : Option Headers) = 0
    ∧ (Payment.paymentDelivery ⟨none, false, "order-1"⟩ 3
        (.error "Payment gateway timeout")).2 = ConsumeAction.nacked true
    ∧ requeuedDelivery ⟨none, false, "order-1"⟩ = ⟨none, true, "order-1"⟩
    ∧ getRetryCount (requeuedDelivery ⟨none, false, "order-1"⟩).headers = 0
    ∧ getRetryCount (requeuedDelivery ⟨none, false, "order-1"⟩).headers ≠ 2 - 1
    ∧ (Payment.handleRetry none).headers = [("x-retry-count", 1)] :=
  ⟨rfl, rfl, rfl, rfl, by decide, rfl⟩

/-- C2, evaluated at the failing input: a payment delivery carrying
x-retry-count = 3 = maxAttempts whose gateway call fails, arriving with
redelivered = false, writes the failedPayments store and publishes the
payment.failed event, but the consume callback then nacks it with
requeue = true, sending it back to the primary processing queue — not the
reject-without-requeue the claim (and the inline comment of the source,
move to dead letter queue) state. -/
theorem payment_max_retries_requeued_when_not_redelivered :
    (Payment.paymentDelivery ⟨some [("x-retry-count", 3)], false, "order-1"⟩
        3 (.error "Payment gateway timeout")).1.storedFailedPayment = true
    ∧ (Payment.paymentDelivery ⟨some [("x-retry-count", 3)], false, "order-1"⟩
        3 (.error "Payment gateway timeout")).1.publishedEvents = ["payment.failed"]
    ∧ (Payment.paymentDelivery ⟨some [("x-retry-count", 3)], false, "order-1"⟩
        3 (.error "Payment gateway timeout")).2 = ConsumeAction.nacked true :=
  ⟨rfl, rfl, rfl⟩

/-- C3: a consumer registered with noAck = false whose handler throws nacks
the delivery with requeue exactly when the redelivered flag of the broker
is false; when the flag is true the nack carries requeue = false. -/
theorem consume_nack_requeue_iff_not_redelivered (m : Delivery)
    (handlerRun : Delivery → Except String Unit) (e : String)
    (h : handlerRun m = .error e) :
    consumeCallback false (some m) handlerRun = ConsumeAction.nacked (!m.redelivered)
    ∧ (m.redelivered = false →
        consumeCallback false (some m) handlerRun = ConsumeAction.nacked true)
    ∧ (m.redelivered = true →
        consumeCallback false (some m) handlerRun = ConsumeAction.nacked false) := by
  refine ⟨by simp [consumeCallback, h], fun hr => ?_, fun hr => ?_⟩
  · simp [consumeCallback, h, hr]
  · simp [consumeCallback, h, hr]

/-- Witness for C3 on a concrete non-redelivered delivery. -/
theorem consume_nack_requeue_iff_not_redelivered_witness :
    (fun _ : Delivery => (Except.error "boom" : Except String Unit))
        ⟨none, false, "body"⟩ = Except.error "boom"
    ∧ consumeCallback false (some ⟨none, false, "body"⟩)
        (fun _ => Except.error "boom") = ConsumeAction.nacked true :=
  ⟨rfl,
   (consume_nack_requeue_iff_not_redelivered ⟨none, false, "body"⟩
      (fun _ => Except.error "boom") "boom" rfl).2.1 rfl⟩

/-- C4: every publish, sendToQueue, consume or topology call made while no
channel exists fails fast with the channel-not-initialized error and
performs no broker operation (its effect trace is empty). -/
theorem ops_fail_fast_without_channel (s : ClientState)
    (h : s.channel = none) :
    (∀ ex ty d a, RabbitMQClient.assertExchange s ex ty d a
        = ⟨[], .error "Channel not initialized"⟩)
    ∧ (∀ q d a, RabbitMQClient.assertQueue s q d a
        = ⟨[], .error "Channel not initialized"⟩)
    ∧ (∀ q ex rk args, RabbitMQClient.bindQueue s q ex rk args
        = ⟨[], .error "Channel not initialized"⟩)
    ∧ (∀ ex rk msgBody o sn now rand acc,
        RabbitMQClient.publish s ex rk msgBody o sn now rand acc
          = ⟨[], .error "Channel not initialized"⟩)
    ∧ (∀ q msgBody o sn now rand acc,
        RabbitMQClient.sendToQueue s q msgBody o sn now rand acc
          = ⟨[], .error "Channel not initialized"⟩)
    ∧ (∀ q tag, RabbitMQClient.consume s q tag
        = (s, ⟨[], .error "Channel not initialized"⟩)) := by
  refine ⟨fun ex ty d a => ?_, fun q d a => ?_, fun q ex rk args => ?_,
    fun ex rk msgBody o sn now rand acc => ?_,
    fun q msgBody o sn now rand acc => ?_, fun q tag => ?_⟩
  · simp [RabbitMQClient.assertExchange, h]
  · simp [RabbitMQClient.assertQueue, h]
  · simp [RabbitMQClient.bindQueue, h]
  · simp [RabbitMQClient.publish, h]
  · simp [RabbitMQClient.sendToQueue, h]
  · simp [RabbitMQClient.consume, h]

/-- Witness for C4 on the freshly constructed client. -/
theorem ops_fail_fast_without_channel_witness :
    initialState.channel = none
    ∧ RabbitMQClient.publish initialState "orders.topic" "order.high" "m"
        noOptions "order-service" 17 "r1" true
      = ⟨[], .error "Channel not initialized"⟩ :=
  ⟨rfl,
   (ops_fail_fast_without_channel initialState rfl).2.2.2.1
      "orders.topic" "order.high" "m" noOptions "order-service" 17 "r1" true⟩

/-- C5: the try/catch of `connect()` makes it total — modelled by its plain
(non-`Except`) return type — and for every starting state and environment
either it returns `true` having set the connection, the single channel
with prefetch limit 1, and the healthy flag, or it returns `false` having
left a reconnect attempt scheduled (a pending reconnect timer). -/
theorem connect_success_or_schedules_reconnect (s : ClientState)
    (env : RabbitMQClient.ConnectEnv) :
    ((RabbitMQClient.connect s env).2 = true
      ∧ (RabbitMQClient.connect s env).1.connection = true
      ∧ (RabbitMQClient.connect s env).1.channel = some ⟨some 1⟩
      ∧ (RabbitMQClient.connect s env).1.isConnected = true)
    ∨ ((RabbitMQClient.connect s env).2 = false
      ∧ (RabbitMQClient.connect s env).1.reconnectTimer ≠ 0) := by
  rcases env with ⟨co, cc, po⟩
  cases co
  · exact Or.inr ⟨rfl, scheduleReconnect_timer_ne_zero s⟩
  · cases cc
    · exact Or.inr ⟨rfl, scheduleReconnect_timer_ne_zero _⟩
    · cases po
      · exact Or.inr ⟨rfl, scheduleReconnect_timer_ne_zero _⟩
      · exact Or.inl ⟨rfl, rfl, rfl, rfl⟩

/-- Witness for C5: the contract instantiated at the fresh client with an
all-success environment. -/
theorem connect_success_or_schedules_reconnect_witness :
    ((RabbitMQClient.connect initialState ⟨true, true, true⟩).2 = true
      ∧ (RabbitMQClient.connect initialState ⟨true, true, true⟩).1.connection = true
      ∧ (RabbitMQClient.connect initialState ⟨true, true, true⟩).1.channel = some ⟨some 1⟩
      ∧ (RabbitMQClient.connect initialState ⟨true, true, true⟩).1.isConnected = true)
    ∨ ((RabbitMQClient.connect initialState ⟨true, true, true⟩).2 = false
      ∧ (RabbitMQClient.connect initialState ⟨true, true, true⟩).1.reconnectTimer ≠ 0) :=
  connect_success_or_schedules_reconnect initialState ⟨true, true, true⟩

/-- C6: from the constructed client, every event sequence leaves at most
one reconnect timer pending; a schedule request while a timer is pending
is a no-op (the whole state is unchanged); and no event frees the pending
timer slot except the timer firing or a `close()` call. -/
theorem reconnect_timer_at_most_one (evs : List Event) (s : ClientState)
    (e : Event) (hs : s.reconnectTimer ≠ 0)
    (hfree : (step s e).reconnectTimer < s.reconnectTimer) :
    (run initialState evs).reconnectTimer ≤ 1
    ∧ RabbitMQClient.scheduleReconnect s = s
    ∧ ((∃ env, e = Event.timerFire env) ∨ e = Event.closeCall) := by
  refine ⟨run_timer_le_one evs initialState (Nat.zero_le 1), ?_, ?_⟩
  · unfold RabbitMQClient.scheduleReconnect
    rw [if_pos hs]
  · cases e with
    | connectCall env =>
      exact absurd hfree (Nat.not_lt.mpr (connect_timer_ge s env))
    | connectionError =>
      exact absurd hfree (Nat.lt_irrefl s.reconnectTimer)
    | connectionClose =>
      have hge : s.reconnectTimer ≤
          (RabbitMQClient.scheduleReconnect { s with isConnected := false }).reconnectTimer :=
        scheduleReconnect_timer_ge { s with isConnected := false }
      exact absurd hfree (Nat.not_lt.mpr hge)
    | timerFire env => exact Or.inl ⟨env, rfl⟩
    | consumeCall q tag =>
      have heq : (step s (Event.consumeCall q tag)).reconnectTimer = s.reconnectTimer :=
        consume_timer s q tag
      rw [heq] at hfree
      exact absurd hfree (Nat.lt_irrefl s.reconnectTimer)
    | cancelConsumerCall q =>
      have heq : (step s (Event.cancelConsumerCall q)).reconnectTimer = s.reconnectTimer :=
        cancelConsumer_timer s q
      rw [heq] at hfree
      exact absurd hfree (Nat.lt_irrefl s.reconnectTimer)
    | closeCall => exact Or.inr rfl

/-- Witness for C6: a pending-timer state where scheduling is a no-op and
the timer firing frees the slot. -/
theorem reconnect_timer_at_most_one_witness :
    (⟨false, none, false, 1, []⟩ : ClientState).reconnectTimer ≠ 0
    ∧ (step ⟨false, none, false, 1, []⟩ (Event.timerFire ⟨true, true, true⟩)).reconnectTimer
        < (⟨false, none, false, 1, []⟩ : ClientState).reconnectTimer
    ∧ (run initialState [Event.connectionClose, Event.connectionClose]).reconnectTimer ≤ 1
    ∧ RabbitMQClient.scheduleReconnect ⟨false, none, false, 1, []⟩
        = ⟨false, none, false, 1, []⟩ := by
  have h := reconnect_timer_at_most_one [Event.connectionClose, Event.connectionClose]
    ⟨false, none, false, 1, []⟩ (Event.timerFire ⟨true, true, true⟩)
    (by decide) (by decide)
  exact ⟨by decide, by decide, h.1, h.2.1⟩

/-- C7: with a live channel, the options handed to the channel by
`publish` carry the defaults persistent = true, content type
application/json, the current timestamp and a freshly generated message
id, each overridden by the corresponding caller option when supplied, and
the call returns the resolved message identifier. -/
theorem publish_metadata_defaults_and_overrides (s : ClientState)
    (ch : Channel) (h : s.channel = some ch) (ex rk msgBody : String)
    (o : PublishOptions) (sn : String) (now : Nat) (rand : String) (acc : Bool) :
    (RabbitMQClient.publish s ex rk msgBody o sn now rand acc).result
        = .ok (resolveOptions o sn now rand).messageId
    ∧ BrokerOp.channelPublish ex rk msgBody (resolveOptions o sn now rand)
        ∈ (RabbitMQClient.publish s ex rk msgBody o sn now rand acc).effects
    ∧ (resolveOptions o sn now rand).persistent = o.persistent.getD true
    ∧ (resolveOptions o sn now rand).contentType = o.contentType.getD "application/json"
    ∧ (resolveOptions o sn now rand).timestamp = o.timestamp.getD now
    ∧ (resolveOptions o sn now rand).messageId
        = o.messageId.getD (generateMessageId sn now rand)
    ∧ (resolveOptions o sn now rand).headers = o.headers := by
  refine ⟨?_, ?_, rfl, rfl, rfl, rfl, rfl⟩
  · simp [RabbitMQClient.publish, h]
  · simp [RabbitMQClient.publish, h]

/-- Witness for C7 on a connected client with all options overridden. -/
theorem publish_metadata_defaults_and_overrides_witness :
    ((RabbitMQClient.connect initialState ⟨true, true, true⟩).1).channel = some ⟨some 1⟩
    ∧ (RabbitMQClient.publish (RabbitMQClient.connect initialState ⟨true, true, true⟩).1
        "orders.fanout" "" "body" ⟨some false, some "text/plain", some 9, some "mid-7", none⟩
        "payment-service" 4 "r2" true).result = .ok "mid-7" := by
  have h := publish_metadata_defaults_and_overrides
    (RabbitMQClient.connect initialState ⟨true, true, true⟩).1 ⟨some 1⟩ rfl
    "orders.fanout" "" "body" ⟨some false, some "text/plain", some 9, some "mid-7", none⟩
    "payment-service" 4 "r2" true
  exact ⟨rfl, h.1⟩

/-- C8: when the channel-level send reports the outbound buffer full
(`accepted = false`), both `publish` and `sendToQueue` emit the hand-off
to the channel followed by the drain wait as the final effect before the
call resolves — the message is handed to the transport exactly once and
the call does not resolve before the drain signal. -/
theorem publish_backpressure_waits_for_drain (s : ClientState) (ch : Channel)
    (h : s.channel = some ch) (ex rk q msgBody : String) (o : PublishOptions)
    (sn : String) (now : Nat) (rand : String) :
    (RabbitMQClient.publish s ex rk msgBody o sn now rand false).effects
      = [BrokerOp.channelPublish ex rk msgBody (resolveOptions o sn now rand),
         BrokerOp.awaitDrain]
    ∧ (RabbitMQClient.publish s ex rk msgBody o sn now rand false).result
      = .ok (resolveOptions o sn now rand).messageId
    ∧ (RabbitMQClient.sendToQueue s q msgBody o sn now rand false).effects
      = [BrokerOp.channelSendToQueue q msgBody (resolveOptions o sn now rand),
         BrokerOp.awaitDrain]
    ∧ (RabbitMQClient.sendToQueue s q msgBody o sn now rand false).result
      = .ok (resolveOptions o sn now rand).messageId := by
  refine ⟨?_, ?_, ?_, ?_⟩ <;>
    simp [RabbitMQClient.publish, RabbitMQClient.sendToQueue, h]

/-- Deleting a key removes every binding for it. -/
lemma mapGet_mapDelete (m : List (String × String)) (k : String) :
    mapGet (mapDelete m k) k = none := by
  induction m with
  | nil => rfl
  | cons a t ih =>
    simp only [mapGet, mapDelete] at ih ⊢
    cases hak : (a.1 == k)
    · simp [hak, ih]
    · simp [hak, ih]

/-- Cancelling a queue whose registration exists under a live channel
issues the broker cancel and deletes the entry. -/
lemma cancelConsumer_of_some (s : ClientState) (q tag : String) (ch : Channel)
    (hm : mapGet s.consumers q = some tag) (hc : s.channel = some ch) :
    RabbitMQClient.cancelConsumer s q
      = ({ s with consumers := mapDelete s.consumers q }, [BrokerOp.channelCancel tag]) := by
  unfold RabbitMQClient.cancelConsumer
  rw [hm, hc]

/-- A successful `connect()` leaves the prefetch-1 channel in place. -/
lemma connect_success_channel (s : ClientState) (env : RabbitMQClient.ConnectEnv)
    (h : (RabbitMQClient.connect s env).2 = true) :
    ((RabbitMQClient.connect s env).1).channel = some ⟨some 1⟩ := by
  rcases env with ⟨co, cc, po⟩
  cases co
  · exact absurd h Bool.false_ne_true
  · cases cc
    · exact absurd h Bool.false_ne_true
    · cases po
      · exact absurd h Bool.false_ne_true
      · rfl

/-- Witness for C8 on a connected client. -/
theorem publish_backpressure_waits_for_drain_witness :
    ((RabbitMQClient.connect initialState ⟨true, true, true⟩).1).channel = some ⟨some 1⟩
    ∧ (RabbitMQClient.publish (RabbitMQClient.connect initialState ⟨true, true, true⟩).1
        "orders.topic" "order.high" "body" noOptions "order-service" 5 "r3" false).effects
      = [BrokerOp.channelPublish "orders.topic" "order.high" "body"
          (resolveOptions noOptions "order-service" 5 "r3"), BrokerOp.awaitDrain] := by
  have h := publish_backpressure_waits_for_drain
    (RabbitMQClient.connect initialState ⟨true, true, true⟩).1 ⟨some 1⟩ rfl
    "orders.topic" "order.high" "payments.process" "body" noOptions "order-service" 5 "r3"
  exact ⟨rfl, h.1⟩

/-- C9: in every state reachable from the constructed client,
`cancelConsumer(queue)` cancels the active registration of the queue at
the broker and removes it from the registry when one exists, and is a
no-op raising no error (it is total and changes nothing) when the queue
has no active registration. -/
theorem cancelConsumer_removes_or_noop (evs : List Event) (q : String) :
    (∀ tag, mapGet (run initialState evs).consumers q = some tag →
        ((RabbitMQClient.cancelConsumer (run initialState evs) q).1).consumers
            = mapDelete (run initialState evs).consumers q
        ∧ (RabbitMQClient.cancelConsumer (run initialState evs) q).2
            = [BrokerOp.channelCancel tag]
        ∧ mapGet ((RabbitMQClient.cancelConsumer (run initialState evs) q).1).consumers q
            = none)
    ∧ (mapGet (run initialState evs).consumers q = none →
        RabbitMQClient.cancelConsumer (run initialState evs) q
          = ((run initialState evs), [])) := by
  constructor
  · intro tag hm
    have hinv := run_consumersInv evs initialState (fun hcon => absurd rfl hcon)
    have hne := mapGet_some_ne_nil _ q tag hm
    obtain ⟨ch, hc⟩ := Option.isSome_iff_exists.mp (hinv hne)
    rw [cancelConsumer_of_some _ q tag ch hm hc]
    exact ⟨rfl, rfl, mapGet_mapDelete _ q⟩
  · intro hm
    exact cancelConsumer_of_none _ q hm

/-- Witness for C9: after connecting and registering one consumer,
cancelling removes the registration. -/
theorem cancelConsumer_removes_or_noop_witness :
    mapGet (run initialState [Event.connectCall ⟨true, true, true⟩,
        Event.consumeCall "payments.process" "ctag-1"]).consumers "payments.process"
      = some "ctag-1"
    ∧ mapGet ((RabbitMQClient.cancelConsumer
        (run initialState [Event.connectCall ⟨true, true, true⟩,
          Event.consumeCall "payments.process" "ctag-1"]) "payments.process").1).consumers
        "payments.process" = none := by
  have h := (cancelConsumer_removes_or_noop
    [Event.connectCall ⟨true, true, true⟩,
     Event.consumeCall "payments.process" "ctag-1"] "payments.process").1
    "ctag-1" (by decide)
  exact ⟨by decide, h.2.2⟩

/-- C10: once `connect()` has succeeded, no later event — connection
errors, close events, reconnects, registry calls or `close()` — clears
the channel field, so no subsequent publish, sendToQueue, consume or
topology call raises the channel-not-initialized error, even while
`isHealthy()` is false. -/
theorem channel_survives_disconnects (s : ClientState)
    (env : RabbitMQClient.ConnectEnv) (h : (RabbitMQClient.connect s env).2 = true)
    (evs : List Event) :
    (run (RabbitMQClient.connect s env).1 evs).channel.isSome = true
    ∧ (∀ ex ty d a,
        (RabbitMQClient.assertExchange (run (RabbitMQClient.connect s env).1 evs)
          ex ty d a).result ≠ .error "Channel not initialized")
    ∧ (∀ q d a,
        (RabbitMQClient.assertQueue (run (RabbitMQClient.connect s env).1 evs)
          q d a).result ≠ .error "Channel not initialized")
    ∧ (∀ q ex rk args,
        (RabbitMQClient.bindQueue (run (RabbitMQClient.connect s env).1 evs)
          q ex rk args).result ≠ .error "Channel not initialized")
    ∧ (∀ ex rk msgBody o sn now rand acc,
        (RabbitMQClient.publish (run (RabbitMQClient.connect s env).1 evs)
          ex rk msgBody o sn now rand acc).result ≠ .error "Channel not initialized")
    ∧ (∀ q msgBody o sn now rand acc,
        (RabbitMQClient.sendToQueue (run (RabbitMQClient.connect s env).1 evs)
          q msgBody o sn now rand acc).result ≠ .error "Channel not initialized")
    ∧ (∀ q tag,
        ((RabbitMQClient.consume (run (RabbitMQClient.connect s env).1 evs)
          q tag).2).result ≠ .error "Channel not initialized") := by
  have hch : (run (RabbitMQClient.connect s env).1 evs).channel.isSome = true :=
    run_channel_isSome evs _ (by rw [connect_success_channel s env h]; rfl)
  obtain ⟨ch, hc⟩ := Option.isSome_iff_exists.mp hch
  refine ⟨hch, ?_, ?_, ?_, ?_, ?_, ?_⟩ <;> intros <;>
    simp [RabbitMQClient.assertExchange, RabbitMQClient.assertQueue,
      RabbitMQClient.bindQueue, RabbitMQClient.publish, RabbitMQClient.sendToQueue,
      RabbitMQClient.consume, hc]

/-- Witness for C10: after a successful connect and a connection error the
client is unhealthy, yet publish does not raise the precondition error. -/
theorem channel_survives_disconnects_witness :
    (RabbitMQClient.connect initialState ⟨true, true, true⟩).2 = true
    ∧ RabbitMQClient.isHealthy (run (RabbitMQClient.connect initialState
        ⟨true, true, true⟩).1 [Event.connectionError]) = false
    ∧ (RabbitMQClient.publish (run (RabbitMQClient.connect initialState
        ⟨true, true, true⟩).1 [Event.connectionError])
        "orders.fanout" "" "m" noOptions "payment-service" 1 "r4" true).result
      ≠ .error "Channel not initialized" := by
  have h := channel_survives_disconnects initialState ⟨true, true, true⟩ rfl
    [Event.connectionError]
  exact ⟨rfl, rfl, h.2.2.2.2.1 "orders.fanout" "" "m" noOptions "payment-service" 1 "r4" true⟩

end ECommerce
